import Mathlib

/-!
Verification development for a URDF (robot description) XML normalizer.

The program under study turns the raw attributed node tree produced by an
external XML layer into a canonical typed Robot value.  The raw tree is
modelled by the inductive type RVal below: an element maps child names to a
single node, an array of nodes, or a scalar; attributes are stored under
keys carrying the reserved prefix given by two characters at-sign underscore,
and element text content under the reserved key hash-text.  Numbers are
modelled as exact rationals.
-/

namespace Urdf

/-- A raw value of the attributed node tree produced by the XML layer:
a string, a number, a boolean, an object (a finite map from keys to raw
values, in insertion order), or an array of raw values. -/
inductive RVal where
  | vstr (s : String)
  | vnum (q : Rat)
  | vbool (b : Bool)
  | vobj (fields : List (String × RVal))
  | varr (items : List RVal)

/-- Truthiness of a raw value, following the host language: the empty
string, the number zero and false are falsy; every object and every array
is truthy. -/
def truthy : RVal → Bool
  | .vstr s => s ≠ ""
  | .vnum q => q ≠ 0
  | .vbool b => b
  | .vobj _ => true
  | .varr _ => true

/-- Property lookup on a raw value.  Only objects carry named properties;
lookup on a scalar or an array yields nothing. -/
def lookup (v : RVal) (key : String) : Option RVal :=
  match v with
  | .vobj fields => (fields.find? (fun p => p.1 = key)).map (fun p => p.2)
  | _ => none

/-- Guarded child access: models the idiom of testing a property for
truthiness before using it.  Returns the property value only when it is
present and truthy. -/
def child (v : RVal) (key : String) : Option RVal :=
  (lookup v key).bind fun c => if truthy c then some c else none

/-- Decimal value of a list of digit characters. -/
def digitsVal (cs : List Char) : Nat :=
  cs.foldl (fun a c => a * 10 + (c.toNat - 48)) 0

/-- Model of the host float parser: skips leading whitespace, consumes an
optional sign, integer digits, an optional fraction, and an optional
exponent, and returns the value of the longest valid numeric prefix; when
no numeric prefix exists it returns none (the not-a-number outcome).
Numbers are exact rationals.  The special word Infinity is not modelled;
no claim depends on it. -/
def parseFloatQ (s : String) : Option Rat :=
  let cs := s.data.dropWhile Char.isWhitespace
  let signNeg : Bool := match cs with | '-' :: _ => true | _ => false
  let cs := match cs with | '-' :: r => r | '+' :: r => r | _ => cs
  let ip := cs.takeWhile Char.isDigit
  let cs := cs.dropWhile Char.isDigit
  let fp := match cs with | '.' :: r => r.takeWhile Char.isDigit | _ => []
  let cs := match cs with | '.' :: r => r.dropWhile Char.isDigit | _ => cs
  if ip.isEmpty && fp.isEmpty then none
  else
    let e : Int :=
      match cs with
      | c :: r =>
        if c = 'e' || c = 'E' then
          let eneg : Bool := match r with | '-' :: _ => true | _ => false
          let r := match r with | '-' :: r2 => r2 | '+' :: r2 => r2 | _ => r
          let ed := r.takeWhile Char.isDigit
          if ed.isEmpty then 0
          else if eneg then -(Int.ofNat (digitsVal ed)) else Int.ofNat (digitsVal ed)
        else 0
      | [] => 0
    let den : Nat := 10 ^ fp.length
    let mant : Int := Int.ofNat (digitsVal ip * den + digitsVal fp)
    let mant : Int := if signNeg then -mant else mant
    some (if e ≥ 0 then mkRat (mant * Int.ofNat (10 ^ e.toNat)) den
          else mkRat mant (den * 10 ^ (-e).toNat))

/-- Translation of parseNumber from the coercion utilities: absent input
yields the default, a string without a numeric prefix yields the default,
otherwise the parsed number. -/
def parseNumber (value : Option String) (defaultValue : Rat) : Rat :=
  match value with
  | none => defaultValue
  | some s =>
    match parseFloatQ s with
    | none => defaultValue
    | some q => q

/-- Tokenizer behind splitWs: collects maximal nonempty runs of
non-whitespace characters, the current partial token carried reversed. -/
def splitWsAux : List Char → List Char → List String
  | [], cur => if cur.isEmpty then [] else [String.mk cur.reverse]
  | c :: rest, cur =>
    if c.isWhitespace then
      if cur.isEmpty then splitWsAux rest []
      else String.mk cur.reverse :: splitWsAux rest []
    else splitWsAux rest (c :: cur)

/-- Splitting a raw attribute string on runs of whitespace after trimming,
as done by the vector and color parsers: the tokens are the maximal
nonempty runs of non-whitespace characters. -/
def splitWs (s : String) : List String :=
  splitWsAux s.data []

/-- A floating-point triple. -/
structure Vector3 where
  x : Rat
  y : Rat
  z : Rat
deriving DecidableEq, Repr

/-- Translation of parseVector3: absent input, or a split that does not
yield exactly three tokens, returns the default as a whole; otherwise each
component is independently coerced with the corresponding default component
as fallback. -/
def parseVector3 (value : Option String) (defaultValue : Vector3) : Vector3 :=
  match value with
  | none => defaultValue
  | some s =>
    let parts := splitWs s
    if parts.length = 3 then
      { x := parseNumber (some (parts.getD 0 "")) defaultValue.x
      , y := parseNumber (some (parts.getD 1 "")) defaultValue.y
      , z := parseNumber (some (parts.getD 2 "")) defaultValue.z }
    else defaultValue

/-- An ordered red-green-blue-alpha quadruple. -/
structure RGBA where
  r : Rat
  g : Rat
  b : Rat
  a : Rat
deriving DecidableEq, Repr

/-- Translation of parseRGBA: same contract as parseVector3 but requiring
exactly four tokens. -/
def parseRGBA (value : Option String) (defaultValue : RGBA) : RGBA :=
  match value with
  | none => defaultValue
  | some s =>
    let parts := splitWs s
    if parts.length = 4 then
      { r := parseNumber (some (parts.getD 0 "")) defaultValue.r
      , g := parseNumber (some (parts.getD 1 "")) defaultValue.g
      , b := parseNumber (some (parts.getD 2 "")) defaultValue.b
      , a := parseNumber (some (parts.getD 3 "")) defaultValue.a }
    else defaultValue

/-- Translation of ensureArray: absent gives the empty sequence, an array
gives itself unchanged, any other value gives the one-element sequence
holding it. -/
def ensureArray (element : Option RVal) : List RVal :=
  match element with
  | none => []
  | some (.varr xs) => xs
  | some v => [v]

/-- Translation of getAttribute: reads the attribute key (reserved prefix
followed by the attribute name) from a raw node.  Returns none when the
node is absent or falsy, when the key is absent, and also whenever the
stored value is falsy, mirroring the truthiness test the source performs on
the looked-up value.  The function is total: it never fails. -/
def getAttribute (obj : Option RVal) (attributeName : String) : Option RVal :=
  obj.bind fun o =>
    if truthy o then
      (lookup o ("@_" ++ attributeName)).bind fun v =>
        if truthy v then some v else none
    else none

/-- Decimal digits of a proper fraction, most significant first; fuel bounds
the expansion (the XML layer only produces terminating decimals, for which
the fuel is never exhausted). -/
def fracDigits : Nat → Nat → Nat → String
  | 0, _, _ => ""
  | fuel + 1, num, den =>
    if num = 0 then ""
    else Nat.repr (num * 10 / den) ++ fracDigits fuel (num * 10 % den) den

/-- Host rendering of a number as a decimal string. -/
def numToString (q : Rat) : String :=
  let sign := if q.num < 0 then "-" else ""
  let n := q.num.natAbs
  let i := n / q.den
  let f := n % q.den
  if f = 0 then sign ++ Nat.repr i
  else sign ++ Nat.repr i ++ "." ++ fracDigits 64 f q.den

mutual
/-- Host coercion of a raw value to a string: strings unchanged, numbers in
decimal, booleans as words, objects as the canonical object placeholder,
arrays as the comma-separated coercion of their elements. -/
def jsToString : RVal → String
  | .vstr s => s
  | .vnum q => numToString q
  | .vbool b => if b then "true" else "false"
  | .vobj _ => "[object Object]"
  | .varr xs => jsArrToString xs

/-- Comma-separated coercion of a list of raw values. -/
def jsArrToString : List RVal → String
  | [] => ""
  | [x] => jsToString x
  | x :: y :: xs => jsToString x ++ "," ++ jsArrToString (y :: xs)
end

/-- Attribute access followed by the string coercion the typed interface
assumes for attribute values. -/
def attrStr (obj : Option RVal) (attributeName : String) : Option String :=
  (getAttribute obj attributeName).map jsToString

/-- A pose: optional position and optional roll-pitch-yaw. -/
structure OriginPose where
  xyz : Option Vector3
  rpy : Option Vector3
deriving DecidableEq, Repr

/-- Mass record of an inertial element. -/
structure MassVal where
  value : Rat
deriving DecidableEq, Repr

/-- Inertia tensor: six independent scalars. -/
structure Inertia where
  ixx : Rat
  ixy : Rat
  ixz : Rat
  iyy : Rat
  iyz : Rat
  izz : Rat
deriving DecidableEq, Repr

/-- Link inertial properties. -/
structure Inertial where
  origin : Option OriginPose
  mass : Option MassVal
  inertia : Option Inertia
deriving DecidableEq, Repr

/-- Color record of a material. -/
structure ColorSpec where
  rgba : Option RGBA
deriving DecidableEq, Repr

/-- Texture record of a material. -/
structure TextureSpec where
  filename : Option String
deriving DecidableEq, Repr

/-- Material: optional name, color and texture. -/
structure Material where
  name : Option String
  color : Option ColorSpec
  texture : Option TextureSpec
deriving DecidableEq, Repr

/-- Box geometry. -/
structure GeomBox where
  size : Option Vector3
deriving DecidableEq, Repr

/-- Cylinder geometry. -/
structure GeomCylinder where
  radius : Option Rat
  length : Option Rat
deriving DecidableEq, Repr

/-- Sphere geometry. -/
structure GeomSphere where
  radius : Option Rat
deriving DecidableEq, Repr

/-- Mesh geometry: a filename and an optional scale. -/
structure GeomMesh where
  filename : Option String
  scale : Option Vector3
deriving DecidableEq, Repr

/-- Geometry: a union-like record with whichever shapes were present. -/
structure Geometry where
  box : Option GeomBox
  cylinder : Option GeomCylinder
  sphere : Option GeomSphere
  mesh : Option GeomMesh
deriving DecidableEq, Repr

/-- Visual element of a link. -/
structure Visual where
  name : Option String
  origin : Option OriginPose
  geometry : Option Geometry
  material : Option Material
deriving DecidableEq, Repr

/-- Collision element of a link. -/
structure Collision where
  name : Option String
  origin : Option OriginPose
  geometry : Option Geometry
deriving DecidableEq, Repr

/-- A link: required name, optional inertial, visual and collision lists. -/
structure Link where
  name : String
  inertial : Option Inertial
  visuals : List Visual
  collisions : List Collision
deriving DecidableEq, Repr

/-- Joint limits. -/
structure JointLimit where
  lower : Option Rat
  upper : Option Rat
  effort : Option Rat
  velocity : Option Rat
deriving DecidableEq, Repr

/-- Joint dynamics. -/
structure JointDynamics where
  damping : Option Rat
  friction : Option Rat
deriving DecidableEq, Repr

/-- Joint calibration. -/
structure Calib where
  rising : Option Rat
  falling : Option Rat
deriving DecidableEq, Repr

/-- Mimic record: the followed joint with multiplier and offset. -/
structure Mimic where
  joint : String
  multiplier : Option Rat
  offset : Option Rat
deriving DecidableEq, Repr

/-- Axis record of a joint. -/
structure AxisSpec where
  xyz : Option Vector3
deriving DecidableEq, Repr

/-- Reference to a link by name. -/
structure LinkRef where
  link : String
deriving DecidableEq, Repr

/-- A joint: required name, type and endpoints, optional sub-records.  The
source stores the type attribute unchecked, so it is a plain string here. -/
structure Joint where
  name : String
  type : String
  origin : Option OriginPose
  parent : LinkRef
  child : LinkRef
  axis : Option AxisSpec
  limit : Option JointLimit
  dynamics : Option JointDynamics
  calibration : Option Calib
  mimic : Option Mimic
deriving DecidableEq, Repr

/-- Joint record of a transmission. -/
structure TransJoint where
  name : String
deriving DecidableEq, Repr

/-- Actuator record of a transmission. -/
structure Actuator where
  name : String
  mechanicalReduction : Option Rat
deriving DecidableEq, Repr

/-- A transmission.  The declared interface types the type field as a
string, but the source assigns the raw text-content value unconverted in
the object branch, so the field holds a raw value here: for producible
input whose text content the XML layer parses as a number, the program
really stores that number. -/
structure Transmission where
  name : Option String
  type : Option RVal
  joint : Option TransJoint
  actuator : Option Actuator

/-- The root robot value: name plus the four normalized collections. -/
structure Robot where
  name : String
  links : List Link
  joints : List Joint
  transmissions : List Transmission
  materials : List Material

/-- Conversion of an origin element: each attribute converted only when
present, field by field. -/
def processOrigin (o : RVal) : OriginPose :=
  { xyz := (attrStr (some o) "xyz").map (fun s => parseVector3 (some s) { x := 0, y := 0, z := 0 })
  , rpy := (attrStr (some o) "rpy").map (fun s => parseVector3 (some s) { x := 0, y := 0, z := 0 }) }

/-- Conversion of an inertial element. -/
def processInertial (inertialData : RVal) : Inertial :=
  { origin := (child inertialData "origin").map processOrigin
  , mass := (child inertialData "mass").map (fun m =>
      { value := parseNumber (attrStr (some m) "value") 0 })
  , inertia := (child inertialData "inertia").map (fun i =>
      { ixx := parseNumber (attrStr (some i) "ixx") 0
      , ixy := parseNumber (attrStr (some i) "ixy") 0
      , ixz := parseNumber (attrStr (some i) "ixz") 0
      , iyy := parseNumber (attrStr (some i) "iyy") 0
      , iyz := parseNumber (attrStr (some i) "iyz") 0
      , izz := parseNumber (attrStr (some i) "izz") 0 }) }

/-- Conversion of a geometry element: each of the four shapes is checked
independently; the mesh scale is parsed (with a default of one in every
component) only when the scale attribute passes the truthiness test. -/
def processGeometry (geometryData : RVal) : Geometry :=
  { box := (child geometryData "box").map (fun b =>
      { size := some (parseVector3 (attrStr (some b) "size") { x := 0, y := 0, z := 0 }) })
  , cylinder := (child geometryData "cylinder").map (fun c =>
      { radius := some (parseNumber (attrStr (some c) "radius") 0)
      , length := some (parseNumber (attrStr (some c) "length") 0) })
  , sphere := (child geometryData "sphere").map (fun s =>
      { radius := some (parseNumber (attrStr (some s) "radius") 0) })
  , mesh := (child geometryData "mesh").map (fun m =>
      { filename := attrStr (some m) "filename"
      , scale := (attrStr (some m) "scale").map (fun sc =>
          parseVector3 (some sc) { x := 1, y := 1, z := 1 }) }) }

/-- Conversion of a material element (used both at root level and inline on
a visual; no resolution between the two). -/
def processMaterial (materialData : RVal) : Material :=
  { name := attrStr (some materialData) "name"
  , color := (child materialData "color").map (fun c =>
      { rgba := some (parseRGBA (attrStr (some c) "rgba") { r := 0, g := 0, b := 0, a := 1 }) })
  , texture := (child materialData "texture").map (fun t =>
      { filename := attrStr (some t) "filename" }) }

/-- Conversion of a visual element. -/
def processVisual (visualData : RVal) : Visual :=
  { name := attrStr (some visualData) "name"
  , origin := (child visualData "origin").map processOrigin
  , geometry := (child visualData "geometry").map processGeometry
  , material := (child visualData "material").map processMaterial }

/-- Conversion of a collision element. -/
def processCollision (collisionData : RVal) : Collision :=
  { name := attrStr (some collisionData) "name"
  , origin := (child collisionData "origin").map processOrigin
  , geometry := (child collisionData "geometry").map processGeometry }

/-- Body of a successful link conversion, given the validated name. -/
def buildLink (link : RVal) (name : String) : Link :=
  { name := name
  , inertial := (child link "inertial").map processInertial
  , visuals := (ensureArray (child link "visual")).map processVisual
  , collisions := (ensureArray (child link "collision")).map processCollision }

/-- Per-link conversion: a link whose name attribute is missing (or falsy)
is skipped, signalled by none. -/
def processLink? (link : RVal) : Option Link :=
  match getAttribute (some link) "name" with
  | none => none
  | some nameV => some (buildLink link (jsToString nameV))

/-- Conversion of the link collection: array-normalize, then convert each
entry, dropping the invalid ones. -/
def processLinks (linkData : RVal) : List Link :=
  (ensureArray (some linkData)).filterMap processLink?

/-- Body of a successful joint conversion, given the validated name, type
and endpoint link names. -/
def buildJoint (joint : RVal) (name ty parentLink childLink : String) : Joint :=
  { name := name
  , type := ty
  , origin := (child joint "origin").map processOrigin
  , parent := { link := parentLink }
  , child := { link := childLink }
  , axis := (child joint "axis").map (fun ax =>
      { xyz := some (parseVector3 (attrStr (some ax) "xyz") { x := 1, y := 0, z := 0 }) })
  , limit := (child joint "limit").map (fun l =>
      { lower := some (parseNumber (attrStr (some l) "lower") 0)
      , upper := some (parseNumber (attrStr (some l) "upper") 0)
      , effort := some (parseNumber (attrStr (some l) "effort") 0)
      , velocity := some (parseNumber (attrStr (some l) "velocity") 0) })
  , dynamics := (child joint "dynamics").map (fun d =>
      { damping := some (parseNumber (attrStr (some d) "damping") 0)
      , friction := some (parseNumber (attrStr (some d) "friction") 0) })
  , calibration := (child joint "calibration").map (fun c =>
      { rising := some (parseNumber (attrStr (some c) "rising") 0)
      , falling := some (parseNumber (attrStr (some c) "falling") 0) })
  , mimic := (child joint "mimic").bind (fun m =>
      (attrStr (some m) "joint").map (fun mj =>
        { joint := mj
        , multiplier := some (parseNumber (attrStr (some m) "multiplier") 1)
        , offset := some (parseNumber (attrStr (some m) "offset") 0) })) }

/-- Per-joint conversion: a joint missing its name, its type, a truthy
parent element with a truthy link attribute, or a truthy child element with
a truthy link attribute, is skipped, signalled by none.  The bind chain
mirrors the short-circuit order of the source guards. -/
def processJoint? (joint : RVal) : Option Joint :=
  (getAttribute (some joint) "name").bind fun nameV =>
  (getAttribute (some joint) "type").bind fun typeV =>
  (child joint "parent").bind fun parentNode =>
  (child joint "child").bind fun childNode =>
  (getAttribute (some parentNode) "link").bind fun pl =>
  (getAttribute (some childNode) "link").bind fun cl =>
  some (buildJoint joint (jsToString nameV) (jsToString typeV) (jsToString pl) (jsToString cl))

/-- Conversion of the joint collection. -/
def processJoints (jointData : RVal) : List Joint :=
  (ensureArray (some jointData)).filterMap processJoint?

/-- Conversion of the root-level material collection: every entry is
converted, none are dropped. -/
def processMaterials (materialData : RVal) : List Material :=
  (ensureArray (some materialData)).map processMaterial

/-- Text content of the transmission type element, following the source's
three branches: an object with a truthy text-content entry yields that
entry raw, with no conversion; a bare string yields itself; any other
value (a bare number, a boolean, an array, an object without truthy text
content) goes through the host string coercion. -/
def textContent (v : RVal) : RVal :=
  match v with
  | .vobj _ =>
    match lookup v "#text" with
    | some tv => if truthy tv then tv else .vstr (jsToString v)
    | none => .vstr (jsToString v)
  | .vstr s => .vstr s
  | _ => .vstr (jsToString v)

/-- Numeric text content of the mechanical-reduction element: an object
with a truthy text-content entry, a bare string, and a bare number are each
fed through the numeric parser; any other shape is left unset. -/
def mechanicalReduction? (mr : RVal) : Option Rat :=
  match mr with
  | .vobj _ =>
    match lookup mr "#text" with
    | some tv => if truthy tv then some (parseNumber (some (jsToString tv)) 0) else none
    | none => none
  | .vstr s => some (parseNumber (some s) 0)
  | .vnum q => some (parseNumber (some (numToString q)) 0)
  | _ => none

/-- Conversion of one transmission element. -/
def processTransmission (transmission : RVal) : Transmission :=
  { name := attrStr (some transmission) "name"
  , type := (child transmission "type").map textContent
  , joint := (child transmission "joint").map (fun j =>
      { name := (attrStr (some j) "name").getD "" })
  , actuator := (child transmission "actuator").map (fun act =>
      { name := (attrStr (some act) "name").getD ""
      , mechanicalReduction := (child act "mechanicalReduction").bind mechanicalReduction? }) }

/-- Conversion of the transmission collection. -/
def processTransmissions (transmissionData : RVal) : List Transmission :=
  (ensureArray (some transmissionData)).map processTransmission

/-- A falsy or absent collection entry is replaced by an empty array before
normalization, modelling the or-empty-array idiom of the source. -/
def orEmptyArr (o : Option RVal) : RVal :=
  o.getD (.varr [])

/-- Construction of the Robot value from a truthy root robot node. -/
def buildRobot (robot : RVal) : Robot :=
  { name := (attrStr (some robot) "name").getD ""
  , links := processLinks (orEmptyArr (child robot "link"))
  , joints := processJoints (orEmptyArr (child robot "joint"))
  , materials := processMaterials (orEmptyArr (child robot "material"))
  , transmissions := processTransmissions (orEmptyArr (child robot "transmission")) }

/-- Translation of processURDF, the entry point past the XML layer: a
parsed tree without a truthy root robot node is a fatal error with no
partial result; otherwise the four collections are normalized. -/
def processURDF (parsed : RVal) : Except String Robot :=
  match child parsed "robot" with
  | none => .error "Invalid URDF: Missing robot element"
  | some robot => .ok (buildRobot robot)

/-- Attribute entry of a raw node: the reserved prefix plus the name, with
a string value, as the XML layer stores attributes. -/
def aN (k v : String) : String × RVal :=
  ("@_" ++ k, .vstr v)

/-- Raw origin element with position and roll-pitch-yaw attributes. -/
def originN (xyz rpy : String) : RVal :=
  .vobj [aN "xyz" xyz, aN "rpy" rpy]

/-- Raw mass element. -/
def massN (v : String) : RVal :=
  .vobj [aN "value" v]

/-- Raw inertia element with its six scalar attributes. -/
def inertiaN (ixx ixy ixz iyy iyz izz : String) : RVal :=
  .vobj [aN "ixx" ixx, aN "ixy" ixy, aN "ixz" ixz, aN "iyy" iyy, aN "iyz" iyz, aN "izz" izz]

/-- Raw inertial element holding origin, mass and inertia children. -/
def inertialN (origin mass inertia : RVal) : RVal :=
  .vobj [("origin", origin), ("mass", mass), ("inertia", inertia)]

/-- Raw geometry element holding one box child. -/
def boxGeomN (size : String) : RVal :=
  .vobj [("box", .vobj [aN "size" size])]

/-- Raw geometry element holding one cylinder child. -/
def cylinderGeomN (radius length : String) : RVal :=
  .vobj [("cylinder", .vobj [aN "radius" radius, aN "length" length])]

/-- Raw geometry element holding one sphere child. -/
def sphereGeomN (radius : String) : RVal :=
  .vobj [("sphere", .vobj [aN "radius" radius])]

/-- Raw visual element with origin, geometry and a named inline material. -/
def visualN (origin geometry : RVal) (mat : String) : RVal :=
  .vobj [("origin", origin), ("geometry", geometry), ("material", .vobj [aN "name" mat])]

/-- Raw collision element with origin and geometry. -/
def collisionN (origin geometry : RVal) : RVal :=
  .vobj [("origin", origin), ("geometry", geometry)]

/-- Raw root-level material with a name and a color. -/
def matN (name rgba : String) : RVal :=
  .vobj [aN "name" name, ("color", .vobj [aN "rgba" rgba])]

/-- Sample document, link base underbar link. -/
def sampleBaseLink : RVal := .vobj
  [ aN "name" "base_link"
  , ("inertial", inertialN (originN "0 0 0" "0 0 0") (massN "1.0")
      (inertiaN "0.1" "0" "0" "0.1" "0" "0.1"))
  , ("visual", visualN (originN "0 0 0" "0 0 0") (boxGeomN "0.2 0.2 0.1") "blue")
  , ("collision", collisionN (originN "0 0 0" "0 0 0") (boxGeomN "0.2 0.2 0.1")) ]

/-- Sample document, right wheel link. -/
def sampleRightWheel : RVal := .vobj
  [ aN "name" "right_wheel"
  , ("inertial", inertialN (originN "0 0 0" "0 0 0") (massN "0.5")
      (inertiaN "0.05" "0" "0" "0.05" "0" "0.05"))
  , ("visual", visualN (originN "0 0 0" "1.57079632679 0 0") (cylinderGeomN "0.1" "0.05") "black")
  , ("collision", collisionN (originN "0 0 0" "1.57079632679 0 0") (cylinderGeomN "0.1" "0.05")) ]

/-- Sample document, left wheel link. -/
def sampleLeftWheel : RVal := .vobj
  [ aN "name" "left_wheel"
  , ("inertial", inertialN (originN "0 0 0" "0 0 0") (massN "0.5")
      (inertiaN "0.05" "0" "0" "0.05" "0" "0.05"))
  , ("visual", visualN (originN "0 0 0" "1.57079632679 0 0") (cylinderGeomN "0.1" "0.05") "black")
  , ("collision", collisionN (originN "0 0 0" "1.57079632679 0 0") (cylinderGeomN "0.1" "0.05")) ]

/-- Sample document, caster link. -/
def sampleCaster : RVal := .vobj
  [ aN "name" "caster"
  , ("inertial", inertialN (originN "0 0 0" "0 0 0") (massN "0.1")
      (inertiaN "0.01" "0" "0" "0.01" "0" "0.01"))
  , ("visual", visualN (originN "0 0 0" "0 0 0") (sphereGeomN "0.05") "gray")
  , ("collision", collisionN (originN "0 0 0" "0 0 0") (sphereGeomN "0.05")) ]

/-- Sample document, arm link with mesh geometry. -/
def sampleArm : RVal := .vobj
  [ aN "name" "arm"
  , ("inertial", inertialN (originN "0 0 0.15" "0 0 0") (massN "0.3")
      (inertiaN "0.03" "0" "0" "0.03" "0" "0.03"))
  , ("visual", visualN (originN "0 0 0.15" "0 0 0")
      (.vobj [("mesh", .vobj [aN "filename" "meshes/arm.stl", aN "scale" "0.1 0.1 0.1"])]) "red")
  , ("collision", collisionN (originN "0 0 0.15" "0 0 0") (boxGeomN "0.05 0.05 0.3")) ]

/-- Sample document, gripper link. -/
def sampleGripper : RVal := .vobj
  [ aN "name" "gripper"
  , ("inertial", inertialN (originN "0 0 0.05" "0 0 0") (massN "0.1")
      (inertiaN "0.01" "0" "0" "0.01" "0" "0.01"))
  , ("visual", visualN (originN "0 0 0.05" "0 0 0") (boxGeomN "0.05 0.1 0.05") "textured")
  , ("collision", collisionN (originN "0 0 0.05" "0 0 0") (boxGeomN "0.05 0.1 0.05")) ]

/-- Sample document, slider link. -/
def sampleSlider : RVal := .vobj
  [ aN "name" "slider"
  , ("inertial", inertialN (originN "0 0 0" "0 0 0") (massN "0.2")
      (inertiaN "0.02" "0" "0" "0.02" "0" "0.02"))
  , ("visual", visualN (originN "0 0 0" "0 0 0") (cylinderGeomN "0.02" "0.2") "gray")
  , ("collision", collisionN (originN "0 0 0" "0 0 0") (cylinderGeomN "0.02" "0.2")) ]

/-- Sample document, right wheel joint. -/
def sampleJointRightWheel : RVal := .vobj
  [ aN "name" "base_to_right_wheel", aN "type" "continuous"
  , ("parent", .vobj [aN "link" "base_link"])
  , ("child", .vobj [aN "link" "right_wheel"])
  , ("origin", originN "0 -0.15 0" "0 0 0")
  , ("axis", .vobj [aN "xyz" "0 1 0"])
  , ("dynamics", .vobj [aN "damping" "0.1", aN "friction" "0.1"]) ]

/-- Sample document, left wheel joint with mimic. -/
def sampleJointLeftWheel : RVal := .vobj
  [ aN "name" "base_to_left_wheel", aN "type" "continuous"
  , ("parent", .vobj [aN "link" "base_link"])
  , ("child", .vobj [aN "link" "left_wheel"])
  , ("origin", originN "0 0.15 0" "0 0 0")
  , ("axis", .vobj [aN "xyz" "0 1 0"])
  , ("dynamics", .vobj [aN "damping" "0.1", aN "friction" "0.1"])
  , ("mimic", .vobj [aN "joint" "base_to_right_wheel", aN "multiplier" "1", aN "offset" "0"]) ]

/-- Sample document, caster joint. -/
def sampleJointCaster : RVal := .vobj
  [ aN "name" "base_to_caster", aN "type" "fixed"
  , ("parent", .vobj [aN "link" "base_link"])
  , ("child", .vobj [aN "link" "caster"])
  , ("origin", originN "0.1 0 -0.05" "0 0 0") ]

/-- Sample document, arm joint. -/
def sampleJointArm : RVal := .vobj
  [ aN "name" "base_to_arm", aN "type" "revolute"
  , ("parent", .vobj [aN "link" "base_link"])
  , ("child", .vobj [aN "link" "arm"])
  , ("origin", originN "0 0 0.05" "0 0 0")
  , ("axis", .vobj [aN "xyz" "0 1 0"])
  , ("limit", .vobj [aN "lower" "-1.57", aN "upper" "1.57", aN "effort" "100", aN "velocity" "1.0"])
  , ("dynamics", .vobj [aN "damping" "0.5", aN "friction" "0.5"])
  , ("calibration", .vobj [aN "rising" "0.1", aN "falling" "0.0"]) ]

/-- Sample document, gripper joint. -/
def sampleJointGripper : RVal := .vobj
  [ aN "name" "arm_to_gripper", aN "type" "revolute"
  , ("parent", .vobj [aN "link" "arm"])
  , ("child", .vobj [aN "link" "gripper"])
  , ("origin", originN "0 0 0.25" "0 0 0")
  , ("axis", .vobj [aN "xyz" "1 0 0"])
  , ("limit", .vobj [aN "lower" "0", aN "upper" "0.785", aN "effort" "50", aN "velocity" "1.0"]) ]

/-- Sample document, slider joint. -/
def sampleJointSlider : RVal := .vobj
  [ aN "name" "base_to_slider", aN "type" "prismatic"
  , ("parent", .vobj [aN "link" "base_link"])
  , ("child", .vobj [aN "link" "slider"])
  , ("origin", originN "0.1 0 0.05" "0 0 1.57")
  , ("axis", .vobj [aN "xyz" "1 0 0"])
  , ("limit", .vobj [aN "lower" "0", aN "upper" "0.2", aN "effort" "80", aN "velocity" "0.5"]) ]

/-- Sample document, wheel transmission: the type and the mechanical
reduction are text-bearing elements; the XML layer yields the former as a
bare string and the latter as a bare number. -/
def sampleWheelTrans : RVal := .vobj
  [ aN "name" "wheel_trans"
  , ("type", .vstr "transmission_interface/SimpleTransmission")
  , ("joint", .vobj [aN "name" "base_to_right_wheel",
      ("hardwareInterface", .vstr "hardware_interface/VelocityJointInterface")])
  , ("actuator", .vobj [aN "name" "wheel_motor",
      ("mechanicalReduction", .vnum 10),
      ("hardwareInterface", .vstr "hardware_interface/VelocityJointInterface")]) ]

/-- Sample document, arm transmission. -/
def sampleArmTrans : RVal := .vobj
  [ aN "name" "arm_trans"
  , ("type", .vstr "transmission_interface/SimpleTransmission")
  , ("joint", .vobj [aN "name" "base_to_arm",
      ("hardwareInterface", .vstr "hardware_interface/PositionJointInterface")])
  , ("actuator", .vobj [aN "name" "arm_motor",
      ("mechanicalReduction", .vnum 50),
      ("hardwareInterface", .vstr "hardware_interface/PositionJointInterface")]) ]

/-- Root robot node of the canonical sample document, with its five
materials, seven links, six joints and two transmissions in document
order, repeated element names collected into arrays by the XML layer. -/
def sampleRobotNode : RVal := .vobj
  [ aN "name" "simple_robot"
  , ("material", .varr
      [ matN "blue" "0 0 1 1"
      , matN "black" "0 0 0 1"
      , matN "gray" "0.5 0.5 0.5 1"
      , matN "red" "1 0 0 1"
      , .vobj [aN "name" "textured", ("color", .vobj [aN "rgba" "1 1 1 1"]),
          ("texture", .vobj [aN "filename" "textures/default.png"])] ])
  , ("link", .varr
      [ sampleBaseLink, sampleRightWheel, sampleLeftWheel, sampleCaster
      , sampleArm, sampleGripper, sampleSlider ])
  , ("joint", .varr
      [ sampleJointRightWheel, sampleJointLeftWheel, sampleJointCaster
      , sampleJointArm, sampleJointGripper, sampleJointSlider ])
  , ("transmission", .varr [sampleWheelTrans, sampleArmTrans]) ]

/-- Parsed tree of the canonical sample document as the XML layer yields
it: the declaration node and the root robot node. -/
def sampleRaw : RVal := .vobj
  [ ("?xml", .vobj [aN "version" "1.0"])
  , ("robot", sampleRobotNode) ]

/-- Lookup of a link by name in a parsed robot. -/
def findLink (r : Robot) (n : String) : Option Link :=
  r.links.find? (fun l => l.name == n)

/-- Lookup of a joint by name in a parsed robot. -/
def findJoint (r : Robot) (n : String) : Option Joint :=
  r.joints.find? (fun j => j.name == n)

/-- Lookup of a root material by name in a parsed robot. -/
def findMaterial (r : Robot) (n : String) : Option Material :=
  r.materials.find? (fun m => m.name == some n)

/-! Helper lemmas shared by the claim theorems. -/

theorem child_truthy {v c : RVal} {k : String} (h : child v k = some c) :
    truthy c = true := by
  unfold child at h
  rcases hl : lookup v k with _ | w <;> rw [hl] at h
  · exact absurd h (by simp)
  · rw [Option.some_bind] at h
    by_cases ht : truthy w = true
    · rw [if_pos ht] at h; cases h; exact ht
    · rw [if_neg ht] at h; exact absurd h (by simp)

theorem child_eq_some {v c : RVal} {k : String} (hl : lookup v k = some c)
    (ht : truthy c = true) : child v k = some c := by
  unfold child
  rw [hl, Option.some_bind, if_pos ht]

theorem child_eq_none {v : RVal} {k : String} (hl : lookup v k = none) :
    child v k = none := by
  unfold child
  rw [hl, Option.none_bind]

theorem getAttribute_some_truthy {o v : RVal} {n : String}
    (h : getAttribute (some o) n = some v) : truthy o = true := by
  unfold getAttribute at h
  rw [Option.some_bind] at h
  by_cases ht : truthy o = true
  · exact ht
  · rw [if_neg ht] at h; exact absurd h (by simp)

theorem getAttribute_some_vobj {o v : RVal} {n : String}
    (h : getAttribute (some o) n = some v) : ∃ fs, o = .vobj fs := by
  cases o with
  | vobj fs => exact ⟨fs, rfl⟩
  | vstr s => exact absurd h (by simp [getAttribute, lookup])
  | vnum q => exact absurd h (by simp [getAttribute, lookup])
  | vbool b => exact absurd h (by simp [getAttribute, lookup])
  | varr xs => exact absurd h (by simp [getAttribute, lookup])

theorem getAttribute_eq_none_of_falsy {o : RVal} {n : String}
    (ht : truthy o = false) : getAttribute (some o) n = none := by
  unfold getAttribute
  rw [Option.some_bind, if_neg (by simp [ht])]

theorem getAttribute_eq_none_of_lookup_none {o : RVal} {n : String}
    (hl : lookup o ("@_" ++ n) = none) : getAttribute (some o) n = none := by
  unfold getAttribute
  rw [Option.some_bind]
  rcases ht : truthy o with _ | _
  · rw [if_neg (by simp [ht])]
  · rw [if_pos (by simp [ht]), hl, Option.none_bind]

theorem getAttribute_eq_none_of_falsy_value {o v : RVal} {n : String}
    (hl : lookup o ("@_" ++ n) = some v) (hv : truthy v = false) :
    getAttribute (some o) n = none := by
  unfold getAttribute
  rw [Option.some_bind]
  rcases ht : truthy o with _ | _
  · rw [if_neg (by simp [ht])]
  · rw [if_pos (by simp [ht]), hl, Option.some_bind, if_neg (by simp [hv])]

theorem ensureArray_vobj (fs : List (String × RVal)) :
    ensureArray (some (.vobj fs)) = [.vobj fs] := rfl

theorem processLink?_eq_none {l : RVal} (h : getAttribute (some l) "name" = none) :
    processLink? l = none := by
  unfold processLink?
  rw [h]

theorem processLink?_eq_some {l : RVal} {v : RVal}
    (h : getAttribute (some l) "name" = some v) :
    processLink? l = some (buildLink l (jsToString v)) := by
  unfold processLink?
  rw [h]

theorem processJoint?_eq_none {j : RVal}
    (h : getAttribute (some j) "name" = none ∨ getAttribute (some j) "type" = none ∨
      (child j "parent").bind (fun p => getAttribute (some p) "link") = none ∨
      (child j "child").bind (fun c => getAttribute (some c) "link") = none) :
    processJoint? j = none := by
  unfold processJoint?
  rcases hn : getAttribute (some j) "name" with _ | nv
  · simp
  rcases ht : getAttribute (some j) "type" with _ | tv
  · simp [ht]
  rcases hp : child j "parent" with _ | pn
  · simp [ht, hp]
  rcases hc : child j "child" with _ | cn
  · simp [ht, hp, hc]
  rcases hpl : getAttribute (some pn) "link" with _ | pl
  · simp [ht, hp, hc, hpl]
  rcases hcl : getAttribute (some cn) "link" with _ | cl
  · simp [ht, hp, hc, hpl, hcl]
  · exfalso
    rcases h with h | h | h | h
    · rw [hn] at h; cases h
    · rw [ht] at h; cases h
    · rw [hp] at h; simp at h; rw [hpl] at h; cases h
    · rw [hc] at h; simp at h; rw [hcl] at h; cases h

theorem processJoint?_inv {j : RVal} {jt : Joint} (h : processJoint? j = some jt) :
    ∃ nv tv pn cn pl cl,
      getAttribute (some j) "name" = some nv ∧
      getAttribute (some j) "type" = some tv ∧
      child j "parent" = some pn ∧ child j "child" = some cn ∧
      getAttribute (some pn) "link" = some pl ∧
      getAttribute (some cn) "link" = some cl ∧
      jt = buildJoint j (jsToString nv) (jsToString tv) (jsToString pl) (jsToString cl) := by
  unfold processJoint? at h
  rcases hn : getAttribute (some j) "name" with _ | nv <;> rw [hn] at h
  · exact absurd h (by simp)
  rw [Option.some_bind] at h
  rcases ht : getAttribute (some j) "type" with _ | tv <;> rw [ht] at h
  · exact absurd h (by simp)
  rw [Option.some_bind] at h
  rcases hp : child j "parent" with _ | pn <;> rw [hp] at h
  · exact absurd h (by simp)
  rw [Option.some_bind] at h
  rcases hc : child j "child" with _ | cn <;> rw [hc] at h
  · exact absurd h (by simp)
  rw [Option.some_bind] at h
  rcases hpl : getAttribute (some pn) "link" with _ | pl <;> rw [hpl] at h
  · exact absurd h (by simp)
  rw [Option.some_bind] at h
  rcases hcl : getAttribute (some cn) "link" with _ | cl <;> rw [hcl] at h
  · exact absurd h (by simp)
  rw [Option.some_bind] at h
  exact ⟨nv, tv, pn, cn, pl, cl, rfl, rfl, rfl, rfl, hpl, hcl, (Option.some_inj.mp h).symm⟩

/-! Claim theorems. -/

/-- C2: parsing the canonical sample document yields a robot named
simple underscore robot with seven links, six joints, five materials and
two transmissions; the right wheel joint is continuous from base link to
right wheel with axis zero-one-zero; the left wheel joint mimics the right
wheel joint with multiplier one and offset zero; the blue material has
color zero-zero-one-one; and the first visual of the arm link carries the
arm mesh with scale one tenth in every component. -/
theorem c2_sample_document :
    (processURDF sampleRaw).map (fun r => r.name) = .ok "simple_robot" ∧
    (processURDF sampleRaw).map
        (fun r => (r.links.length, r.joints.length, r.materials.length, r.transmissions.length)) =
      .ok (7, 6, 5, 2) ∧
    (processURDF sampleRaw).map
        (fun r => (findJoint r "base_to_right_wheel").map
          (fun j => (j.type, j.parent.link, j.child.link, j.axis))) =
      .ok (some ("continuous", "base_link", "right_wheel",
        some { xyz := some { x := 0, y := 1, z := 0 } })) ∧
    (processURDF sampleRaw).map
        (fun r => (findJoint r "base_to_left_wheel").map (fun j => j.mimic)) =
      .ok (some (some { joint := "base_to_right_wheel", multiplier := some 1, offset := some 0 })) ∧
    (processURDF sampleRaw).map
        (fun r => (findMaterial r "blue").map (fun m => m.color)) =
      .ok (some (some { rgba := some { r := 0, g := 0, b := 1, a := 1 } })) ∧
    (processURDF sampleRaw).map
        (fun r => (findLink r "arm").bind
          (fun l => l.visuals.head?.bind (fun v => v.geometry.bind (fun g => g.mesh)))) =
      .ok (some { filename := some "meshes/arm.stl"
                , scale := some { x := mkRat 1 10, y := mkRat 1 10, z := mkRat 1 10 } }) :=
  ⟨rfl, rfl, rfl, rfl, rfl, rfl⟩

/-- C3: a parsed tree whose top level lacks a robot entry fails with the
error naming the missing robot element and produces no partial result; an
accepted tree whose robot node lacks a name attribute parses without error
to a robot whose name is the empty string. -/
theorem c3_root_requirement :
    (∀ parsed : RVal, lookup parsed "robot" = none →
      processURDF parsed = .error "Invalid URDF: Missing robot element") ∧
    (∀ parsed robotNode : RVal, child parsed "robot" = some robotNode →
      lookup robotNode "@_name" = none →
      processURDF parsed = .ok (buildRobot robotNode) ∧ (buildRobot robotNode).name = "") := by
  constructor
  · intro parsed h
    unfold processURDF
    rw [child_eq_none h]
  · intro parsed robotNode h hname
    refine ⟨by unfold processURDF; rw [h], ?_⟩
    have hga : getAttribute (some robotNode) "name" = none :=
      getAttribute_eq_none_of_lookup_none (by exact hname)
    simp [buildRobot, attrStr, hga]

/-- Document without a robot entry, used by the C3 witness. -/
def noRobotDoc : RVal := .vobj [("not_robot", .vstr "x")]

/-- Robot node without a name attribute, used by the C3 witness. -/
def unnamedRobotNode : RVal := .vobj [("link", .vobj [aN "name" "a"])]

/-- Document holding the unnamed robot node, used by the C3 witness. -/
def unnamedRobotDoc : RVal := .vobj [("robot", unnamedRobotNode)]

/-- Witness for C3 at the two concrete documents above. -/
theorem c3_root_requirement_witness :
    processURDF noRobotDoc = .error "Invalid URDF: Missing robot element" ∧
    (buildRobot unnamedRobotNode).name = "" :=
  ⟨c3_root_requirement.1 noRobotDoc rfl,
   (c3_root_requirement.2 unnamedRobotDoc unnamedRobotNode rfl rfl).2⟩

/-- C5: the vector parser returns the default whole when the input is
absent or does not split into exactly three tokens; with exactly three
tokens each component is independently coerced with the corresponding
default component as fallback; in particular the string one-point-zero abc
three-point-zero with a zero default parses to one, zero, three. -/
theorem c5_parseVector3_contract :
    (∀ D : Vector3, parseVector3 none D = D) ∧
    (∀ (s : String) (D : Vector3), (splitWs s).length ≠ 3 → parseVector3 (some s) D = D) ∧
    (∀ (s : String) (D : Vector3) (t0 t1 t2 : String), splitWs s = [t0, t1, t2] →
      parseVector3 (some s) D =
        { x := parseNumber (some t0) D.x
        , y := parseNumber (some t1) D.y
        , z := parseNumber (some t2) D.z }) ∧
    parseVector3 (some "1.0 abc 3.0") { x := 0, y := 0, z := 0 } = { x := 1, y := 0, z := 3 } := by
  refine ⟨fun D => rfl, ?_, ?_, by decide⟩
  · intro s D h
    simp [parseVector3, h]
  · intro s D t0 t1 t2 hs
    simp [parseVector3, hs]

/-- Witness for C5 at concrete inputs: a two-token string falls back to
the default as a whole, and a three-token split converts componentwise. -/
theorem c5_parseVector3_witness :
    parseVector3 (some "9 9") { x := 4, y := 5, z := 6 } = { x := 4, y := 5, z := 6 } ∧
    parseVector3 (some "7 8 9") { x := 0, y := 0, z := 0 } =
      { x := parseNumber (some "7") 0, y := parseNumber (some "8") 0
      , z := parseNumber (some "9") 0 } :=
  ⟨c5_parseVector3_contract.2.1 "9 9" _ (by decide),
   c5_parseVector3_contract.2.2.1 "7 8 9" _ "7" "8" "9" (by decide)⟩

/-- C6: the array normalizer is the identity on arrays, maps the absent
value to the empty sequence, wraps every non-array value in a one-element
sequence, and is therefore idempotent. -/
theorem c6_ensureArray_laws :
    (∀ xs : List RVal, ensureArray (some (.varr xs)) = xs) ∧
    ensureArray none = [] ∧
    (∀ v : RVal, (∀ xs, v ≠ .varr xs) → ensureArray (some v) = [v]) ∧
    (∀ v : Option RVal, ensureArray (some (.varr (ensureArray v))) = ensureArray v) := by
  refine ⟨fun xs => rfl, rfl, ?_, fun v => rfl⟩
  intro v hv
  cases v with
  | vstr s => rfl
  | vnum q => rfl
  | vbool b => rfl
  | vobj fs => rfl
  | varr xs => exact absurd rfl (hv xs)

/-- Witness for C6 at a concrete non-array value. -/
theorem c6_ensureArray_witness : ensureArray (some (.vstr "a")) = [.vstr "a"] :=
  c6_ensureArray_laws.2.2.1 (.vstr "a") (fun _ h => RVal.noConfusion h)

/-- Link node carrying no name attribute, used by the C1 counterexample
and the C4 witness. -/
def linkNoName : RVal := .vobj [("visual", .vstr "v")]

/-- Robot node with exactly one link child, that child unnamed. -/
def robotOneBadLink : RVal := .vobj [aN "name" "r", ("link", linkNoName)]

/-- Document holding the robot with one unnamed link child. -/
def docOneBadLink : RVal := .vobj [("robot", robotOneBadLink)]

/-- C1 counterexample: a document accepted by the parser whose robot node
has exactly one link child, yet the resulting links sequence is empty, not
a one-element sequence, because that single link child lacks a name
attribute and is dropped. -/
theorem c1_counterexample :
    lookup robotOneBadLink "link" = some linkNoName ∧
    (processURDF docOneBadLink).map (fun r => r.links.length) = .ok 0 :=
  ⟨rfl, rfl⟩

/-- C1 (amended): every parsed tree with a truthy root robot node is
accepted and normalized into a Robot whose links, joints, materials and
transmissions are sequences by construction; a robot node with exactly one
link child that carries a name attribute yields a one-element links
sequence; a robot node with no link entry yields an empty links sequence.
The amendment adds the name requirement in the one-element case: the
source drops a nameless link, so one nameless link child yields an empty
sequence. -/
theorem c1_normalized_sequences (parsed robotNode : RVal)
    (haccept : child parsed "robot" = some robotNode) :
    processURDF parsed = .ok (buildRobot robotNode) ∧
    (∀ linkNode nameV, lookup robotNode "link" = some linkNode →
      getAttribute (some linkNode) "name" = some nameV →
      (buildRobot robotNode).links.length = 1) ∧
    (lookup robotNode "link" = none → (buildRobot robotNode).links = []) := by
  refine ⟨by unfold processURDF; rw [haccept], ?_, ?_⟩
  · intro linkNode nameV hlink hname
    obtain ⟨fs, rfl⟩ := getAttribute_some_vobj hname
    have hchild : child robotNode "link" = some (.vobj fs) := child_eq_some hlink rfl
    show (processLinks (orEmptyArr (child robotNode "link"))).length = 1
    rw [hchild]
    show (processLinks (.vobj fs)).length = 1
    unfold processLinks
    rw [ensureArray_vobj, List.filterMap_cons, processLink?_eq_some hname]
    rfl
  · intro hlink
    show processLinks (orEmptyArr (child robotNode "link")) = []
    rw [child_eq_none hlink]
    rfl

/-- Witness for C1 at a concrete document with one named link child. -/
def oneGoodLinkRobot : RVal := .vobj [aN "name" "r", ("link", .vobj [aN "name" "L"])]

/-- Document holding the robot with one named link child. -/
def oneGoodLinkDoc : RVal := .vobj [("robot", oneGoodLinkRobot)]

theorem c1_normalized_sequences_witness :
    processURDF oneGoodLinkDoc = .ok (buildRobot oneGoodLinkRobot) ∧
    (buildRobot oneGoodLinkRobot).links.length = 1 :=
  ⟨(c1_normalized_sequences oneGoodLinkDoc oneGoodLinkRobot rfl).1,
   (c1_normalized_sequences oneGoodLinkDoc oneGoodLinkRobot rfl).2.1
     (.vobj [aN "name" "L"]) (.vstr "L") rfl rfl⟩

/-- C4: a link without a name, and a joint missing its name, its type, a
parent link attribute or a child link attribute, is dropped from its
collection without error and without affecting the conversion of the
remaining entries; and every entry whose conversion succeeds appears,
fully converted, in the output collection. -/
theorem c4_entity_drop :
    (∀ (pre post : List RVal) (badLink : RVal),
      getAttribute (some badLink) "name" = none →
      processLinks (.varr (pre ++ badLink :: post)) = processLinks (.varr (pre ++ post))) ∧
    (∀ (pre post : List RVal) (badJoint : RVal),
      (getAttribute (some badJoint) "name" = none ∨
       getAttribute (some badJoint) "type" = none ∨
       (child badJoint "parent").bind (fun p => getAttribute (some p) "link") = none ∨
       (child badJoint "child").bind (fun c => getAttribute (some c) "link") = none) →
      processJoints (.varr (pre ++ badJoint :: post)) = processJoints (.varr (pre ++ post))) ∧
    (∀ (xs : List RVal) (linkNode : RVal) (l : Link),
      linkNode ∈ xs → processLink? linkNode = some l → l ∈ processLinks (.varr xs)) ∧
    (∀ (xs : List RVal) (jointNode : RVal) (j : Joint),
      jointNode ∈ xs → processJoint? jointNode = some j → j ∈ processJoints (.varr xs)) := by
  refine ⟨?_, ?_, ?_, ?_⟩
  · intro pre post badLink h
    unfold processLinks
    show ((pre ++ badLink :: post).filterMap processLink?) = ((pre ++ post).filterMap processLink?)
    rw [List.filterMap_append, List.filterMap_append, List.filterMap_cons,
      processLink?_eq_none h]
  · intro pre post badJoint h
    unfold processJoints
    show ((pre ++ badJoint :: post).filterMap processJoint?) = ((pre ++ post).filterMap processJoint?)
    rw [List.filterMap_append, List.filterMap_append, List.filterMap_cons,
      processJoint?_eq_none h]
  · intro xs linkNode l hmem hconv
    exact List.mem_filterMap.mpr ⟨linkNode, hmem, hconv⟩
  · intro xs jointNode j hmem hconv
    exact List.mem_filterMap.mpr ⟨jointNode, hmem, hconv⟩

/-- Well-formed link node, used by the C4 witness. -/
def goodLinkNode : RVal := .vobj [aN "name" "good"]

/-- Witness for C4: a collection holding one well-formed link and one
nameless link converts to exactly the conversion of the well-formed link
alone, hence exactly one link. -/
theorem c4_entity_drop_witness :
    processLinks (.varr ([goodLinkNode] ++ linkNoName :: [])) =
      processLinks (.varr ([goodLinkNode] ++ [])) ∧
    (processLinks (.varr [goodLinkNode, linkNoName])).length = 1 ∧
    buildLink goodLinkNode "good" ∈ processLinks (.varr [goodLinkNode, linkNoName]) :=
  ⟨c4_entity_drop.1 [goodLinkNode] [] linkNoName rfl,
   rfl,
   c4_entity_drop.2.2.1 [goodLinkNode, linkNoName] goodLinkNode
     (buildLink goodLinkNode "good") (List.mem_cons_self _ _) rfl⟩

/-- Valid joint whose axis element is empty and attribute-less, so the XML
layer renders it as an empty string: used by the C7 counterexample. -/
def axisEmptyJoint : RVal := .vobj
  [ aN "name" "j", aN "type" "fixed"
  , ("parent", .vobj [aN "link" "a"])
  , ("child", .vobj [aN "link" "b"])
  , ("axis", .vstr "") ]

/-- C7 counterexample: a converted joint with an axis element present in
the raw tree (as the falsy empty string the XML layer produces for an
attribute-less empty element) and no xyz attribute, yet the output joint
omits the axis field instead of defaulting it to the unit x vector. -/
theorem c7_counterexample :
    lookup axisEmptyJoint "axis" = some (.vstr "") ∧
    getAttribute (some (.vstr "")) "xyz" = none ∧
    (processJoint? axisEmptyJoint).map (fun j => j.axis) = some none :=
  ⟨rfl, rfl, rfl⟩

/-- C7 (amended): for every converted joint, when the axis entry passes
the truthiness test (for example an element carrying any attribute or
text) but has no xyz attribute, the output axis is the unit x vector; when
the axis entry is absent or falsy (as for an empty attribute-less
element), the axis field is omitted.  The amendment restricts the default
case to truthy axis entries and widens the omission case to falsy ones. -/
theorem c7_axis_default (jointNode : RVal) (j : Joint)
    (hconv : processJoint? jointNode = some j) :
    (∀ ax : RVal, child jointNode "axis" = some ax →
      getAttribute (some ax) "xyz" = none →
      j.axis = some { xyz := some { x := 1, y := 0, z := 0 } }) ∧
    (child jointNode "axis" = none → j.axis = none) := by
  obtain ⟨nv, tv, pn, cn, pl, cl, _, _, _, _, _, _, rfl⟩ := processJoint?_inv hconv
  have haxis : (buildJoint jointNode (jsToString nv) (jsToString tv)
      (jsToString pl) (jsToString cl)).axis =
      (child jointNode "axis").map (fun ax =>
        { xyz := some (parseVector3 (attrStr (some ax) "xyz")
            { x := 1, y := 0, z := 0 }) }) := rfl
  constructor
  · intro ax hax hxyz
    rw [haxis, hax, Option.map_some']
    simp [attrStr, hxyz, parseVector3]
  · intro hax
    rw [haxis, hax]
    rfl

/-- Valid joint whose axis element carries an attribute other than xyz,
used by the C7 witness. -/
def axisNoXyzJoint : RVal := .vobj
  [ aN "name" "j2", aN "type" "fixed"
  , ("parent", .vobj [aN "link" "a"])
  , ("child", .vobj [aN "link" "b"])
  , ("axis", .vobj [aN "w" "1"]) ]

/-- Valid joint with no axis element at all, used by the C7 witness. -/
def noAxisJoint : RVal := .vobj
  [ aN "name" "j3", aN "type" "fixed"
  , ("parent", .vobj [aN "link" "a"])
  , ("child", .vobj [aN "link" "b"]) ]

/-- Witness for C7 at concrete joints: a truthy axis without xyz defaults
to the unit x vector, and a missing axis is omitted. -/
theorem c7_axis_default_witness :
    (buildJoint axisNoXyzJoint "j2" "fixed" "a" "b").axis =
      some { xyz := some { x := 1, y := 0, z := 0 } } ∧
    (buildJoint noAxisJoint "j3" "fixed" "a" "b").axis = none :=
  ⟨(c7_axis_default axisNoXyzJoint (buildJoint axisNoXyzJoint "j2" "fixed" "a" "b") rfl).1
      (.vobj [aN "w" "1"]) rfl rfl,
   (c7_axis_default noAxisJoint (buildJoint noAxisJoint "j3" "fixed" "a" "b") rfl).2 rfl⟩

/-- Mesh node whose scale attribute is present but empty, used by the C8
counterexample. -/
def meshScaleEmpty : RVal := .vobj [aN "filename" "f.stl", aN "scale" ""]

/-- Geometry node holding the empty-scale mesh. -/
def geomScaleEmpty : RVal := .vobj [("mesh", meshScaleEmpty)]

/-- C8 counterexample: a mesh whose scale attribute string exists (the
empty string) and fails the three-token rule, yet the output omits the
scale field instead of defaulting it to the unit scale. -/
theorem c8_counterexample :
    lookup meshScaleEmpty "@_scale" = some (.vstr "") ∧
    (splitWs "").length ≠ 3 ∧
    (processGeometry geomScaleEmpty).mesh =
      some { filename := some "f.stl", scale := none } :=
  ⟨rfl, by decide, rfl⟩

/-- C8 (amended): the mesh scale defaults to the unit scale only when the
scale attribute is present with a truthy (nonempty) string whose
whitespace split is not exactly three tokens; when the attribute is
entirely absent, or present but empty, the scale field is omitted.  The
amendment excludes the empty attribute string from the defaulting case. -/
theorem c8_mesh_scale :
    (∀ (g m : RVal) (sv : String), child g "mesh" = some m →
      attrStr (some m) "scale" = some sv → (splitWs sv).length ≠ 3 →
      (processGeometry g).mesh =
        some { filename := attrStr (some m) "filename"
             , scale := some { x := 1, y := 1, z := 1 } }) ∧
    (∀ g m : RVal, child g "mesh" = some m → lookup m "@_scale" = none →
      (processGeometry g).mesh =
        some { filename := attrStr (some m) "filename", scale := none }) ∧
    (∀ g m : RVal, child g "mesh" = some m → lookup m "@_scale" = some (.vstr "") →
      (processGeometry g).mesh =
        some { filename := attrStr (some m) "filename", scale := none }) := by
  have hmesh : ∀ g : RVal, (processGeometry g).mesh =
      (child g "mesh").map (fun m =>
        { filename := attrStr (some m) "filename"
        , scale := (attrStr (some m) "scale").map (fun sc =>
            parseVector3 (some sc) { x := 1, y := 1, z := 1 }) }) := fun g => rfl
  refine ⟨?_, ?_, ?_⟩
  · intro g m sv hm hscale hlen
    rw [hmesh, hm, Option.map_some', hscale]
    simp [parseVector3, hlen]
  · intro g m hm hnone
    have hs : attrStr (some m) "scale" = none := by
      rw [attrStr, getAttribute_eq_none_of_lookup_none (by exact hnone)]
      rfl
    rw [hmesh, hm, Option.map_some', hs]
    rfl
  · intro g m hm hempty
    have hs : attrStr (some m) "scale" = none := by
      rw [attrStr,
        @getAttribute_eq_none_of_falsy_value m (.vstr "") "scale" (by exact hempty) rfl]
      rfl
    rw [hmesh, hm, Option.map_some', hs]
    rfl

/-- Mesh node with a two-token scale attribute, used by the C8 witness. -/
def meshBadScale : RVal := .vobj [aN "filename" "g.stl", aN "scale" "1 2"]

/-- Geometry node holding the two-token-scale mesh. -/
def geomBadScale : RVal := .vobj [("mesh", meshBadScale)]

/-- Witness for C8 at concrete meshes: a nonempty scale with the wrong
token count defaults to the unit scale; an absent scale is omitted. -/
theorem c8_mesh_scale_witness :
    (processGeometry geomBadScale).mesh =
      some { filename := some "g.stl", scale := some { x := 1, y := 1, z := 1 } } ∧
    (processGeometry (.vobj [("mesh", .vobj [aN "filename" "h.stl"])])).mesh =
      some { filename := some "h.stl", scale := none } :=
  ⟨c8_mesh_scale.1 geomBadScale meshBadScale "1 2" rfl rfl (by decide),
   c8_mesh_scale.2.1 (.vobj [("mesh", .vobj [aN "filename" "h.stl"])])
     (.vobj [aN "filename" "h.stl"]) rfl rfl⟩

theorem lookup_some_vobj {o w : RVal} {k : String} (h : lookup o k = some w) :
    ∃ fs, o = .vobj fs := by
  cases o with
  | vobj fs => exact ⟨fs, rfl⟩
  | vstr s => exact absurd h (by simp [lookup])
  | vnum q => exact absurd h (by simp [lookup])
  | vbool b => exact absurd h (by simp [lookup])
  | varr xs => exact absurd h (by simp [lookup])

/-- Transmission node whose type element carries an attribute and numeric
text content, so the XML layer yields an object whose text-content entry
is a number: used by the C9 counterexample. -/
def typeNumTrans : RVal := .vobj
  [ ("type", .vobj [aN "foo" "x", ("#text", .vnum 42)]) ]

/-- C9 counterexample: a transmission whose type element arrives as an
object with a numeric text-content entry is emitted with that number as
the type, raw and unconverted, so the type is not normalized to a string
in the object branch. -/
theorem c9_counterexample :
    lookup (.vobj [aN "foo" "x", ("#text", .vnum 42)]) "#text" = some (.vnum 42) ∧
    (processTransmission typeNumTrans).type = some (.vnum 42) ∧
    (∀ s : String, (processTransmission typeNumTrans).type ≠ some (.vstr s)) :=
  ⟨rfl, rfl, fun s h => by
    rw [show (processTransmission typeNumTrans).type = some (.vnum 42) from rfl] at h
    exact RVal.noConfusion (Option.some_inj.mp h)⟩

/-- C9 (amended): the transmission type and the actuator mechanical
reduction are read from element text content (the child entry of that
name, not an attribute), and the conversion handles each of the three raw
shapes the XML layer may produce for a text-bearing element.  For the
mechanical reduction all three shapes are normalized to a parsed number;
for the type, the bare-string and bare-number shapes are normalized to a
string, while the object-with-text-content shape passes the text value
through raw, so a numeric text value stays a number.  The amendment drops
the always-a-string guarantee for the type in the object branch, which the
counterexample refutes. -/
theorem c9_transmission_text_shapes :
    (∀ t ty tv : RVal, child t "type" = some ty →
      lookup ty "#text" = some tv → truthy tv = true →
      (processTransmission t).type = some tv) ∧
    (∀ (t : RVal) (s : String), child t "type" = some (.vstr s) →
      (processTransmission t).type = some (.vstr s)) ∧
    (∀ (t : RVal) (q : Rat), child t "type" = some (.vnum q) →
      (processTransmission t).type = some (.vstr (numToString q))) ∧
    (∀ t act mr tv : RVal, child t "actuator" = some act →
      child act "mechanicalReduction" = some mr →
      lookup mr "#text" = some tv → truthy tv = true →
      ((processTransmission t).actuator).bind (fun a => a.mechanicalReduction) =
        some (parseNumber (some (jsToString tv)) 0)) ∧
    (∀ (t act : RVal) (s : String), child t "actuator" = some act →
      child act "mechanicalReduction" = some (.vstr s) →
      ((processTransmission t).actuator).bind (fun a => a.mechanicalReduction) =
        some (parseNumber (some s) 0)) ∧
    (∀ (t act : RVal) (q : Rat), child t "actuator" = some act →
      child act "mechanicalReduction" = some (.vnum q) →
      ((processTransmission t).actuator).bind (fun a => a.mechanicalReduction) =
        some (parseNumber (some (numToString q)) 0)) := by
  have htype : ∀ t : RVal, (processTransmission t).type =
      (child t "type").map textContent := fun t => rfl
  have hmech : ∀ t : RVal, ((processTransmission t).actuator).bind
        (fun a => a.mechanicalReduction) =
      (child t "actuator").bind (fun act =>
        (child act "mechanicalReduction").bind mechanicalReduction?) := by
    intro t
    show (((child t "actuator").map _).bind _) = _
    rcases h : child t "actuator" with _ | act
    · rfl
    · rfl
  refine ⟨?_, ?_, ?_, ?_, ?_, ?_⟩
  · intro t ty tv hty htext htruthy
    obtain ⟨fs, rfl⟩ := lookup_some_vobj htext
    rw [htype, hty, Option.map_some']
    simp [textContent, htext, htruthy]
  · intro t s hty
    rw [htype, hty]
    rfl
  · intro t q hty
    rw [htype, hty]
    rfl
  · intro t act mr tv hact hmr htext htruthy
    obtain ⟨fs, rfl⟩ := lookup_some_vobj htext
    rw [hmech, hact, Option.some_bind, hmr, Option.some_bind]
    simp [mechanicalReduction?, htext, htruthy]
  · intro t act s hact hmr
    rw [hmech, hact, Option.some_bind, hmr, Option.some_bind]
    rfl
  · intro t act q hact hmr
    rw [hmech, hact, Option.some_bind, hmr, Option.some_bind]
    rfl

/-- Transmission whose type element carries an attribute and string text
content, so the XML layer yields an object with a text-content entry:
used by the C9 witness. -/
def typeObjTrans : RVal := .vobj
  [ ("type", .vobj [aN "role" "drive", ("#text", .vstr "simple")]) ]

/-- Witness for C9 on the wheel transmission of the sample document (type
as a bare string, mechanical reduction as a bare number) and on a
transmission whose type element arrives as an object with string text
content, passed through raw. -/
theorem c9_transmission_text_shapes_witness :
    (processTransmission sampleWheelTrans).type =
      some (.vstr "transmission_interface/SimpleTransmission") ∧
    ((processTransmission sampleWheelTrans).actuator).bind
        (fun a => a.mechanicalReduction) = some 10 ∧
    (processTransmission typeObjTrans).type = some (.vstr "simple") :=
  ⟨c9_transmission_text_shapes.2.1 sampleWheelTrans
      "transmission_interface/SimpleTransmission" rfl,
   c9_transmission_text_shapes.2.2.2.2.2 sampleWheelTrans
      (.vobj [aN "name" "wheel_motor",
        ("mechanicalReduction", .vnum 10),
        ("hardwareInterface", .vstr "hardware_interface/VelocityJointInterface")])
      10 rfl rfl,
   c9_transmission_text_shapes.1 typeObjTrans
      (.vobj [aN "role" "drive", ("#text", .vstr "simple")]) (.vstr "simple") rfl rfl rfl⟩

/-- C10: the attribute accessor is a total function (it never fails) that
returns the absent value when the node is absent or falsy, when the
attribute key is absent, and whenever the stored attribute value is falsy;
consequently a link whose name attribute is the empty string is dropped
exactly like a link with no name attribute, and a joint whose parent
element carries an empty link attribute is dropped exactly like one with
no parent link attribute. -/
theorem c10_getAttribute_falsy :
    (∀ n : String, getAttribute none n = none) ∧
    (∀ (o : RVal) (n : String), truthy o = false → getAttribute (some o) n = none) ∧
    (∀ (o : RVal) (n : String), lookup o ("@_" ++ n) = none →
      getAttribute (some o) n = none) ∧
    (∀ (o v : RVal) (n : String), lookup o ("@_" ++ n) = some v → truthy v = false →
      getAttribute (some o) n = none) ∧
    (∀ fields : List (String × RVal), lookup (.vobj fields) "@_name" = some (.vstr "") →
      processLink? (.vobj fields) = none) ∧
    (∀ jointNode p : RVal, child jointNode "parent" = some p →
      lookup p "@_link" = some (.vstr "") → processJoint? jointNode = none) := by
  refine ⟨fun n => rfl,
    fun o n h => getAttribute_eq_none_of_falsy h,
    fun o n h => getAttribute_eq_none_of_lookup_none h,
    fun o v n h hv => getAttribute_eq_none_of_falsy_value h hv, ?_, ?_⟩
  · intro fields h
    exact processLink?_eq_none
      (@getAttribute_eq_none_of_falsy_value (.vobj fields) (.vstr "") "name" (by exact h) rfl)
  · intro jointNode p hp hlink
    have hpl : getAttribute (some p) "link" = none :=
      @getAttribute_eq_none_of_falsy_value p (.vstr "") "link" (by exact hlink) rfl
    exact processJoint?_eq_none
      (Or.inr (Or.inr (Or.inl (by rw [hp, Option.some_bind, hpl]))))

/-- Link node whose name attribute is the empty string. -/
def emptyNameLink : RVal := .vobj [aN "name" ""]

/-- Joint node whose parent element carries an empty link attribute. -/
def emptyParentLinkJoint : RVal := .vobj
  [ aN "name" "j", aN "type" "fixed"
  , ("parent", .vobj [aN "link" ""])
  , ("child", .vobj [aN "link" "b"]) ]

/-- Witness for C10 at concrete inputs: an empty attribute reads as
absent, an empty-name link is dropped, and a joint with an empty parent
link attribute is dropped. -/
theorem c10_getAttribute_falsy_witness :
    getAttribute (some (.vobj [aN "x" ""])) "x" = none ∧
    processLink? emptyNameLink = none ∧
    processJoint? emptyParentLinkJoint = none :=
  ⟨c10_getAttribute_falsy.2.2.2.1 (.vobj [aN "x" ""]) (.vstr "") "x" rfl rfl,
   c10_getAttribute_falsy.2.2.2.2.1 [aN "name" ""] rfl,
   c10_getAttribute_falsy.2.2.2.2.2 emptyParentLinkJoint (.vobj [aN "link" ""]) rfl rfl⟩

end Urdf
